import Mathlib

/-!
Verification development for the PUTM EV serial JSON reader
(`src/main.py`, with the near-duplicate variant `src/main_key.py`).

The Python program reads newline-delimited JSON from a serial port,
renders rectangular 2-D arrays found under dict keys as heatmap-colored
tables and everything else as plain labels.  This file gives a shallow
embedding of the data model and of the functions the claims are about:

* `Json` models a decoded JSON value (the result of `json.loads`);
  Python numbers (int and float alike) are modelled as exact rationals,
  so IEEE-754 rounding is not modelled; all the arithmetic of the
  heatmap algorithm is carried out in `ℚ`.
* `toFloat` models Python's `float(v)` applied to a decoded JSON value
  (returning `none` where `float` would raise).
* `pyStr` models Python's `str(v)` on decoded values (with Python's
  shortest-roundtrip float repr approximated by the exact decimal
  expansion, and `int`/`float` conflated since `Json.num` keeps one
  rational).
* `is_2d_array`, `add_table`, `render_data`, `display_tables`,
  `update_view` model the corresponding methods of `TableViewer` /
  `App` in `src/main.py`; rendering produces explicit lists of widgets
  (labels and cell grids) instead of Qt objects, and the "rebuild work"
  performed by a call is returned as an explicit counter.
* `readStep` / `runReader` model the serial read loop of
  `SerialWorker.start` (identical in both source files), parameterised
  by an abstract strict line decoder standing for `json.loads`.
-/

/-- A decoded JSON value: the result of `json.loads` on one input line.
Numbers are exact rationals (Python int/float conflated). -/
inductive Json where
  | null
  | bool (b : Bool)
  | num (q : ℚ)
  | str (s : String)
  | arr (items : List Json)
  | obj (entries : List (String × Json))

instance : Inhabited Json := ⟨Json.null⟩

/-- Digit test for `strToFloat`, Python's `str.isdigit` on ASCII digits. -/
def isDig (c : Char) : Bool := '0' ≤ c && c ≤ '9'

/-- Numeric value of a digit string (most significant digit first). -/
def digitsVal (cs : List Char) : Nat :=
  cs.foldl (fun a c => 10 * a + (c.toNat - 48)) 0

/-- Python `float(s)` on a string, restricted to finite decimal literals:
optional surrounding whitespace, optional sign, integer and/or fractional
digits, optional decimal exponent.  (`inf`/`nan` and digit underscores,
which Python also accepts, are not modelled; they never denote a finite
rational.) -/
def strToFloat (s : String) : Option ℚ :=
  let ws := fun c : Char => c == ' ' || c == '\t' || c == '\n' || c == '\r'
  let cs0 := ((s.toList.dropWhile ws).reverse.dropWhile ws).reverse
  let signed : Bool × List Char :=
    match cs0 with
    | '-' :: rest => (true, rest)
    | '+' :: rest => (false, rest)
    | _ => (false, cs0)
  let neg := signed.1
  let cs := signed.2
  let ip := cs.takeWhile isDig
  let cs1 := cs.dropWhile isDig
  let fracAndRest : List Char × List Char :=
    match cs1 with
    | '.' :: rest => (rest.takeWhile isDig, rest.dropWhile isDig)
    | _ => ([], cs1)
  let fp := fracAndRest.1
  let cs2 := fracAndRest.2
  if ip.length + fp.length = 0 then none
  else
    let mant : ℚ := (digitsVal ip : ℚ) + (digitsVal fp : ℚ) / 10 ^ fp.length
    let mag : Option ℚ :=
      match cs2 with
      | [] => some mant
      | e :: rest =>
        if e == 'e' || e == 'E' then
          let esigned : Bool × List Char :=
            match rest with
            | '-' :: r => (true, r)
            | '+' :: r => (false, r)
            | _ => (false, rest)
          let ed := esigned.2.takeWhile isDig
          if ed.length = 0 || esigned.2.dropWhile isDig ≠ [] then none
          else some (if esigned.1 then mant / 10 ^ digitsVal ed
                     else mant * 10 ^ digitsVal ed)
        else none
    mag.map (fun q => if neg then -q else q)

/-- Python `float(v)` on a decoded JSON value: numbers are returned,
booleans become `1`/`0`, numeric strings are parsed, and everything else
(`None`, lists, dicts, non-numeric strings) raises, modelled as `none`.
Used both by the mean computation and by the per-cell `try: float(...)`
blocks in `TableViewer.add_table` and `_format_for_display`. -/
def toFloat : Json → Option ℚ
  | .num q => some q
  | .bool b => some (if b then 1 else 0)
  | .str s => strToFloat s
  | _ => none

/-- Decimal digits of a natural number, most significant first, with an
explicit fuel argument so that the recursion is structural (the fuel
`n + 1` always suffices). -/
def natDigitsAux : Nat → Nat → List Nat
  | 0, _ => []
  | fuel + 1, n => if n < 10 then [n] else natDigitsAux fuel (n / 10) ++ [n % 10]

/-- Decimal digits of a natural number, most significant first. -/
def natDigits (n : Nat) : List Nat := natDigitsAux (n + 1) n

/-- The ASCII character of a decimal digit. -/
def digitChar (d : Nat) : Char := Char.ofNat (48 + d)

/-- Decimal string of a natural number. -/
def natToDecStr (n : Nat) : String := String.mk ((natDigits n).map digitChar)

/-- Decimal string of an integer. -/
def intStr (n : ℤ) : String :=
  (if n < 0 then "-" else "") ++ natToDecStr n.natAbs

/-- Python `str` on a non-integral float, approximated by the exact
decimal expansion when it terminates within 17 places (Python prints the
shortest decimal that round-trips the IEEE double; on the short decimal
literals this program displays the two agree), with a fraction-shaped
fallback for non-terminating expansions. -/
def pyFloatStr (q : ℚ) : String :=
  match (List.range 18).find? (fun k => (q * 10 ^ k).den == 1) with
  | some k =>
    if k = 0 then intStr q.num ++ ".0"
    else (if q < 0 then "-" else "") ++
      String.mk ((natDigits ((q * 10 ^ k).num.natAbs / 10 ^ k)).map digitChar) ++
      "." ++
      String.mk ((List.replicate (k - (natDigits ((q * 10 ^ k).num.natAbs % 10 ^ k)).length) '0') ++
        (natDigits ((q * 10 ^ k).num.natAbs % 10 ^ k)).map digitChar)
  | none => intStr q.num ++ "/" ++ natToDecStr q.den

/-- The single-quote character, used by Python's `repr` of strings. -/
def sQuote : Char := Char.ofNat 39

mutual

/-- Python `repr(v)` on a decoded JSON value (the element form used
inside `str` of a list or dict). -/
def pyRepr : Json → String
  | .null => "None"
  | .bool b => if b then "True" else "False"
  | .num q => if q.den = 1 then intStr q.num else pyFloatStr q
  | .str s => String.mk (sQuote :: s.toList ++ [sQuote])
  | .arr items => "[" ++ String.intercalate ", " (pyReprArr items) ++ "]"
  | .obj kvs => "\x7b" ++ String.intercalate ", " (pyReprObj kvs) ++ "\x7d"

/-- `repr` of the items of a list. -/
def pyReprArr : List Json → List String
  | [] => []
  | v :: rest => pyRepr v :: pyReprArr rest

/-- `repr` of the entries of a dict. -/
def pyReprObj : List (String × Json) → List String
  | [] => []
  | (k, v) :: rest =>
    (String.mk (sQuote :: k.toList ++ [sQuote]) ++ ": " ++ pyRepr v) :: pyReprObj rest

end

/-- Python `str(v)` on a decoded JSON value: bare strings print without
quotes, everything else as its `repr`. -/
def pyStr (v : Json) : String :=
  match v with
  | .str s => s
  | _ => pyRepr v

/-- Round half to even (Python/IEEE rounding of an exact value), used to
model `f"{num:.{precision}f}"` on our exact-rational numbers. -/
def roundHalfEven (q : ℚ) : ℤ :=
  if q - ⌊q⌋ < 1/2 then ⌊q⌋
  else if 1/2 < q - ⌊q⌋ then ⌊q⌋ + 1
  else if ⌊q⌋ % 2 = 0 then ⌊q⌋ else ⌊q⌋ + 1

/-- Character list of `f"{q:.{p}f}"`: `q` rounded to `p` decimal places,
fixed-point, with a decimal point present exactly when `p > 0`.
(Python formats the sign of a negative zero, which exact rationals
cannot represent; that corner is not modelled.) -/
def formatFixedList (q : ℚ) (p : Nat) : List Char :=
  let scaled := roundHalfEven (q * 10 ^ p)
  let ds := natDigits scaled.natAbs
  let sign : List Char := if scaled < 0 then ['-'] else []
  if p = 0 then sign ++ ds.map digitChar
  else
    let ip := if ds.length ≤ p then [0] else ds.take (ds.length - p)
    let fp := if ds.length ≤ p then List.replicate (p - ds.length) 0 ++ ds
              else ds.drop (ds.length - p)
    sign ++ ip.map digitChar ++ ['.'] ++ fp.map digitChar

/-- `s.rstrip(c)` on a character list: drop every trailing copy of `c`. -/
def rstrip (c : Char) (l : List Char) : List Char :=
  (l.reverse.dropWhile (fun x => x == c)).reverse

/-- `TableViewer._format_for_display` (src/main.py:230-241): values that
parse as floats are fixed-point formatted with `prec` decimals, then for
`prec > 0` trailing zeros and a dangling decimal point are stripped
(`s.rstrip('0').rstrip('.')`), and for `prec = 0` the part before the
decimal point is kept (`s.split('.')[0]`); values that do not parse are
passed to `str` unchanged. -/
def format_for_display (prec : Nat) (v : Json) : String :=
  match toFloat v with
  | some num =>
    if 0 < prec then String.mk (rstrip '.' (rstrip '0' (formatFixedList num prec)))
    else String.mk ((formatFixedList num prec).takeWhile (fun c => !(c == '.')))
  | none => pyStr v

/-- An RGB color as produced by the `QColor(int, int, int)` calls. -/
structure Color where
  r : ℤ
  g : ℤ
  b : ℤ
deriving DecidableEq

/-- Truncation toward zero, Python's `int()` applied to a float. -/
def intTrunc (q : ℚ) : ℤ := if q < 0 then -⌊-q⌋ else ⌊q⌋

/-- `TableViewer._lerp` (src/main.py:244-246):
`int(a + (b - a) * max(0.0, min(1.0, t)))`. -/
def lerp (a b : ℤ) (t : ℚ) : ℤ :=
  intTrunc ((a : ℚ) + ((b : ℚ) - (a : ℚ)) * max 0 (min 1 t))

/-- `TableViewer._green_color` (src/main.py:252-258): the in-band hue,
from light `(234, 251, 234)` at `t = 0` to deeper `(184, 240, 184)`. -/
def green_color (t : ℚ) : Color :=
  ⟨lerp 234 184 t, lerp 251 240 t, lerp 234 184 t⟩

/-- `TableViewer._red_color` (src/main.py:260-265): the out-of-band hue,
from light `(255, 234, 234)` at `t = 0` to stronger `(255, 140, 140)`. -/
def red_color (t : ℚ) : Color :=
  ⟨lerp 255 255 t, lerp 234 140 t, lerp 234 140 t⟩

/-- `red_cap_factor` (src/main.py:291): full-strength red at 5x the band
width. -/
def red_cap_factor : ℚ := 5

/-- The `1e-12` guard in `denom = max(max_dev * red_cap_factor, 1e-12)`
(src/main.py:311), taken at its exact decimal value. -/
def epsDenom : ℚ := 1 / 10 ^ 12

/-- The background color of one table cell, from the loop body of
`TableViewer.add_table` (src/main.py:299-316).  `none` means the cell is
left uncolored: no rule applies, the mean is zero, `float(raw_val)`
raises, or — when `max_dev = 0` and the cell sits exactly at the mean —
`t = diff / max_dev` raises `ZeroDivisionError`, which the surrounding
`except Exception: pass` swallows. -/
def cellColor (max_dev : Option ℚ) (avg : ℚ) (v : Json) : Option Color :=
  match max_dev with
  | none => none
  | some md =>
    if avg = 0 then none
    else
      match toFloat v with
      | none => none
      | some num =>
        let diff := |num - avg| / |avg|
        if diff ≤ md then
          if md = 0 then none
          else some (green_color (diff / md))
        else
          let denom := max (md * red_cap_factor) epsDenom
          some (red_color (max 0 (min 1 ((diff - md) / denom))))

/-- The list `nums` built by `add_table` (src/main.py:272-278): every
cell of the matrix, in row-major order, that `float` accepts. -/
def numsOf (table_data : List (List Json)) : List ℚ :=
  table_data.flatten.filterMap toFloat

/-- `avg = sum(nums) / len(nums) if nums else 0.0` (src/main.py:279). -/
def avgOf (table_data : List (List Json)) : ℚ :=
  if numsOf table_data = [] then 0
  else (numsOf table_data).sum / ((numsOf table_data).length : ℚ)

/-- `TableViewer.add_table` (src/main.py:268-318), restricted to its
observable output: the grid of displayed texts and background colors.
(The source loops over `rows x cols` indices of a rectangular matrix;
this is the same traversal expressed as nested maps.) -/
def add_table (prec : Nat) (max_dev : Option ℚ) (table_data : List (List Json)) :
    List (List (String × Option Color)) :=
  table_data.map (fun r =>
    r.map (fun v => (format_for_display prec v, cellColor max_dev (avgOf table_data) v)))

/-- Length of a JSON array (`len(r)`; rows are only measured after the
all-rows-are-lists check has passed). -/
def rowLen : Json → Nat
  | .arr xs => xs.length
  | _ => 0

/-- `TableViewer.is_2d_array` (src/main.py:219-220, main_key.py:150-151):
`isinstance(arr, list) and arr and all(isinstance(r, list) for r in arr)
and all(len(r) == len(arr[0]) for r in arr)`. -/
def is_2d_array (v : Json) : Bool :=
  match v with
  | .arr rows =>
    match rows with
    | [] => false
    | r0 :: _ =>
      rows.all (fun r => match r with | .arr _ => true | _ => false) &&
      rows.all (fun r => rowLen r == rowLen r0)
  | _ => false

/-- The rows of a value that passed `is_2d_array`, as lists of cells. -/
def rowsOf : Json → List (List Json)
  | .arr rows => rows.map (fun r => match r with | .arr xs => xs | _ => [])
  | _ => []

/-- The heatmap configuration of a `TableViewer` (src/main.py:162-171):
display precision, optional per-table rules (a dict `name -> threshold`,
modelled as an association list with distinct names), and the default
threshold used when no per-table rules are configured. -/
structure ViewerCfg where
  precision : Nat
  heatmap_rules : Option (List (String × ℚ))
  default_max_dev : ℚ

/-- The constructor normalization `self.heatmap_rules =
dict(heatmap_rules) if heatmap_rules else None` (src/main.py:170): an
absent or empty rule set is stored as `None`. -/
def mkRules (rules : Option (List (String × ℚ))) : Option (List (String × ℚ)) :=
  match rules with
  | none => none
  | some [] => none
  | some rs => some rs

/-- Dict lookup `key in rules` / `rules[key]`. -/
def lookupRule (key : String) : List (String × ℚ) → Option ℚ
  | [] => none
  | (n, md) :: rest => if n = key then some md else lookupRule key rest

/-- Rule resolution in `TableViewer.render_data` (src/main.py:205-210):
`max_dev = None; if self.heatmap_rules is None: max_dev =
self.default_max_dev; elif key in self.heatmap_rules: max_dev =
self.heatmap_rules[key]`. -/
def resolveMaxDev (rules : Option (List (String × ℚ))) (default_md : ℚ)
    (key : String) : Option ℚ :=
  match rules with
  | none => some default_md
  | some rs => lookupRule key rs

/-- A widget appended to the table view's layout: a (possibly bold)
label, or a table given as its grid of cell texts and colors. -/
inductive RenderItem where
  | label (text : String) (bold : Bool)
  | table (cells : List (List (String × Option Color)))

mutual

/-- `TableViewer.render_data` (src/main.py:200-217): dict values that
classify as 2-D arrays are emitted as a bold `key:` label followed by a
heatmap table; other dict or list values are recursed into; scalars are
ignored (the table view renders only tables). -/
def render_data (cfg : ViewerCfg) : Json → List RenderItem
  | .obj kvs => renderObjEntries cfg kvs
  | .arr items => renderArrItems cfg items
  | _ => []

/-- The `for key, value in data.items()` loop of `render_data`.  The
source recurses only for dict or list values (`elif isinstance(value,
(dict, list))`) and does nothing for scalars; since `render_data` emits
nothing for a scalar, the unconditional `else render_data` branch here
is observationally the same. -/
def renderObjEntries (cfg : ViewerCfg) : List (String × Json) → List RenderItem
  | [] => []
  | (key, value) :: rest =>
    (if is_2d_array value then
      [RenderItem.label (key ++ ":") true,
       RenderItem.table (add_table cfg.precision
         (resolveMaxDev cfg.heatmap_rules cfg.default_max_dev key) (rowsOf value))]
    else render_data cfg value) ++ renderObjEntries cfg rest

/-- The `for item in data` loop of `render_data`. -/
def renderArrItems (cfg : ViewerCfg) : List Json → List RenderItem
  | [] => []
  | item :: rest => render_data cfg item ++ renderArrItems cfg rest

end

/-- Dict lookup by key. -/
def lookupEntry (k : String) : List (String × Json) → Option Json
  | [] => none
  | (k1, v) :: rest => if k1 = k then some v else lookupEntry k rest

mutual

/-- Python `==` on two decoded JSON values (`data == self.last_rendered`
in `display_tables`): deep structural equality, with Python's numeric
cross-type equality between booleans and numbers, and dict equality
independent of key insertion order. -/
def pyEq : Json → Json → Bool
  | .null, .null => true
  | .bool a, .bool b => a == b
  | .bool a, .num q => (if a then (1 : ℚ) else 0) == q
  | .num q, .bool a => q == (if a then (1 : ℚ) else 0)
  | .num a, .num b => a == b
  | .str a, .str b => a == b
  | .arr a, .arr b => pyEqArr a b
  | .obj a, .obj b => a.length == b.length && pyEqObjSub a b
  | _, _ => false

/-- Pointwise `==` of two lists. -/
def pyEqArr : List Json → List Json → Bool
  | [], [] => true
  | x :: xs, y :: ys => pyEq x y && pyEqArr xs ys
  | _, _ => false

/-- Every entry of the first dict is present and `==` in the second
(with equal sizes and unique keys this is dict equality). -/
def pyEqObjSub : List (String × Json) → List (String × Json) → Bool
  | [], _ => true
  | (k, v) :: rest, b =>
    (match lookupEntry k b with
     | some w => pyEq v w
     | none => false) && pyEqObjSub rest b

end

/-- The mutable state of a `TableViewer`: the last fully rendered record
(`self.last_rendered`, initially `None`) and the widgets currently in
the content layout. -/
structure ViewerState where
  last_rendered : Option Json
  widgets : List RenderItem

/-- `TableViewer.display_tables` (src/main.py:193-198).  Returns the new
state together with the number of clear-and-rebuild passes performed
(`0` when the equality check short-circuits, `1` otherwise). -/
def display_tables (cfg : ViewerCfg) (st : ViewerState) (data : Json) :
    ViewerState × Nat :=
  let equalPrev :=
    match st.last_rendered with
    | some prev => pyEq data prev
    | none => false
  if equalPrev then (st, 0)
  else ({ last_rendered := some data, widgets := render_data cfg data }, 1)

/-- A label of the non-table companion view
(`add_wrapping_label(text, bold, indent)` in `App.render_non_table`). -/
structure NTLabel where
  text : String
  bold : Bool
  indent : Nat
deriving DecidableEq

mutual

/-- The `recurse` helper of `App.render_non_table` (src/main.py:500-513):
dict entries that classify as 2-D arrays are skipped (already shown as
tables); every other dict value is shown as a bold `key:` label plus its
`str`; lists are recursed into; bare scalars are shown as their `str`. -/
def recurseNT : Json → List NTLabel
  | .obj kvs => recurseNTObj kvs
  | .arr items => recurseNTArr items
  | d => [⟨pyStr d, false, 0⟩]

/-- The dict case of `recurse`. -/
def recurseNTObj : List (String × Json) → List NTLabel
  | [] => []
  | (k, v) :: rest =>
    (if is_2d_array v then []
     else [⟨k ++ ":", true, 0⟩, ⟨pyStr v, false, 10⟩]) ++ recurseNTObj rest

/-- The list case of `recurse`. -/
def recurseNTArr : List Json → List NTLabel
  | [] => []
  | item :: rest => recurseNT item ++ recurseNTArr rest

end

/-- The view state owned by `App`: the table viewer plus the labels of
the non-table companion view. -/
structure AppState where
  table_viewer : ViewerState
  non_table : List NTLabel

/-- `App.update_view` (src/main.py:478-480): forward the record to
`display_tables`, then unconditionally clear and rebuild the non-table
view (`render_non_table` has no equality skip).  The counter adds the
non-table rebuild, which happens on every call, to the table-view
rebuilds. -/
def update_view (cfg : ViewerCfg) (st : AppState) (data : Json) :
    AppState × Nat :=
  let tv := display_tables cfg st.table_viewer data
  ({ table_viewer := tv.1, non_table := recurseNT data }, tv.2 + 1)

/-- One iteration of the read loop of `SerialWorker.start`
(src/main.py:131-143, src/main_key.py:77-89) on a line already decoded
to text: an empty line is skipped (`if not line: continue`), otherwise
`buffer = line` is (re)assigned — never appended — and `json.loads`
(abstracted as `dec`) either decodes the line or fails, leaving the
failed line in the dead buffer variable.  Delivery goes through the
typed signal `data_received = pyqtSignal(dict)` (src/main.py:114,
src/main_key.py:60): emitting a decoded dict succeeds and clears the
buffer, while a decoded non-dict value makes `emit` raise `TypeError`,
which the loop's outer `except Exception` (src/main.py:144) catches and
logs — nothing is delivered and `buffer = ""` is skipped. -/
def readStep (dec : String → Option Json) (buffer line : String) :
    String × Option Json :=
  if line = "" then (buffer, none)
  else
    match dec line with
    | some j =>
      match j with
      | .obj kvs => ("", some (.obj kvs))
      | _ => (line, none)
    | none => (line, none)

/-- A strict line decoder defined on the single line `42`
(`json.loads("42")` returns the number `42`): a line that parses as
JSON but not to a dict. -/
def decNum42 : String → Option Json :=
  fun l => if l = "42" then some (Json.num 42) else none

/-- The read loop over a whole list of incoming lines, starting from a
given buffer content; returns the final buffer and the list of emitted
records in order. -/
def runReader (dec : String → Option Json) (buffer : String) :
    List String → String × List Json
  | [] => (buffer, [])
  | line :: rest =>
    let step := readStep dec buffer line
    let tail := runReader dec step.1 rest
    (tail.1, step.2.toList ++ tail.2)

/-- A scalar JSON value (not a sequence and not an object). -/
def isScalar : Json → Bool
  | .null => true
  | .bool _ => true
  | .num _ => true
  | .str _ => true
  | _ => false

/-- Modelled from the spec: the spec's Matrix classifier, "a non-empty
ordered sequence of ordered sequences of scalars, where every inner
sequence has identical length".  Stated for the refinement comparison
with the source's `is_2d_array`, which does not inspect cell types. -/
def isMatrixSpec (v : Json) : Bool :=
  match v with
  | .arr rows =>
    match rows with
    | [] => false
    | r0 :: _ =>
      rows.all (fun r =>
        match r with
        | .arr cells => cells.all isScalar
        | _ => false) &&
      rows.all (fun r => rowLen r == rowLen r0)
  | _ => false

/-- Modelled from the spec: the out-of-band interpolation parameter as
the claim states it, `clamp((diff - max_deviation) / (max_deviation * 5),
0, 1)` — without the `1e-12` guard the source applies to the
denominator. -/
def claimOutOfBandT (diff md : ℚ) : ℚ :=
  max 0 (min 1 ((diff - md) / (md * red_cap_factor)))

/-! ## Helper lemmas -/

/-- `natDigitsAux` on a power of ten, for any sufficient fuel. -/
theorem natDigitsAux_pow10 (p fuel : Nat) (h : 10 ^ p < fuel) :
    natDigitsAux fuel (10 ^ p) = 1 :: List.replicate p 0 := by
  induction p generalizing fuel with
  | zero =>
    match fuel, h with
    | f + 1, _ => simp [natDigitsAux]
  | succ m ih =>
    match fuel, h with
    | f + 1, h =>
      have h10 : ¬ (10 ^ (m + 1) < 10) := by
        have : 10 ^ 1 ≤ 10 ^ (m + 1) := Nat.pow_le_pow_right (by omega) (by omega)
        simpa using this
      have hdiv : 10 ^ (m + 1) / 10 = 10 ^ m := by
        rw [pow_succ]
        exact Nat.mul_div_cancel _ (by omega)
      have hmod : 10 ^ (m + 1) % 10 = 0 := by
        rw [pow_succ]
        exact Nat.mul_mod_left _ _
      have hf : 10 ^ m < f := by
        have : 10 ^ m < 10 ^ (m + 1) := Nat.pow_lt_pow_right (by omega) (by omega)
        omega
      rw [natDigitsAux, if_neg h10, hdiv, hmod, ih f hf]
      simp [List.replicate_succ']

/-- Rounding an exact integer is the identity. -/
theorem roundHalfEven_intCast (n : ℤ) : roundHalfEven ((n : ℚ)) = n := by
  rw [roundHalfEven, Int.floor_intCast]
  norm_num

/-- `dropWhile` swallows a leading block of the dropped character. -/
theorem dropWhile_beq_replicate (c : Char) (n : Nat) (l : List Char) :
    ((List.replicate n c ++ l).dropWhile fun x => x == c) =
      l.dropWhile (fun x => x == c) := by
  induction n with
  | zero => simp
  | succ m ih => simp [List.replicate_succ, ih]

/-- `rstrip` removes a trailing block of the stripped character. -/
theorem rstrip_append_replicate (c : Char) (n : Nat) (l : List Char) :
    rstrip c (l ++ List.replicate n c) = rstrip c l := by
  simp [rstrip, List.reverse_append, dropWhile_beq_replicate]

/-- `f"{1:.{m+1}f}"` is `1.` followed by `m + 1` zeros. -/
theorem formatFixedList_one (m : Nat) :
    formatFixedList 1 (m + 1) = ['1', '.'] ++ List.replicate (m + 1) '0' := by
  have hcast : ((1 : ℚ) * 10 ^ (m + 1)) = (((10 ^ (m + 1) : ℤ) : ℚ)) := by
    push_cast; ring
  have hr : roundHalfEven ((1 : ℚ) * 10 ^ (m + 1)) = 10 ^ (m + 1) := by
    rw [hcast, roundHalfEven_intCast]
  have hna : ((10 : ℤ) ^ (m + 1)).natAbs = 10 ^ (m + 1) := by
    simp [Int.natAbs_pow]
  have hds : natDigits ((10 : ℤ) ^ (m + 1)).natAbs = 1 :: List.replicate (m + 1) 0 := by
    rw [hna, natDigits]
    exact natDigitsAux_pow10 _ _ (by omega)
  have hneg : ¬ ((10 : ℤ) ^ (m + 1) < 0) := by
    rw [not_lt]
    positivity
  rw [formatFixedList, hr, hds]
  rw [if_neg (by omega : ¬ (m + 1 = 0)), if_neg hneg]
  have hlen : (1 :: List.replicate (m + 1) 0).length = m + 2 := by simp
  rw [if_neg (by rw [hlen]; omega), if_neg (by rw [hlen]; omega), hlen]
  have h1 : m + 2 - (m + 1) = 1 := by omega
  rw [h1]
  simp [List.map_replicate]
  decide

/-- `f"{0:.{m+1}f}"` is `0.` followed by `m + 1` zeros. -/
theorem formatFixedList_zero (m : Nat) :
    formatFixedList 0 (m + 1) = ['0', '.'] ++ List.replicate (m + 1) '0' := by
  have hr : roundHalfEven ((0 : ℚ) * 10 ^ (m + 1)) = 0 := by
    have h : ((0 : ℚ) * 10 ^ (m + 1)) = (((0 : ℤ) : ℚ)) := by norm_num
    rw [h, roundHalfEven_intCast]
  rw [formatFixedList, hr]
  have hds : natDigits (0 : ℤ).natAbs = [0] := by decide
  rw [hds]
  rw [if_neg (by omega : ¬ (m + 1 = 0)), if_neg (by omega : ¬ ((0 : ℤ) < 0))]
  have hlen : ([0] : List Nat).length = 1 := by simp
  rw [if_pos (by rw [hlen]; omega), if_pos (by rw [hlen]; omega), hlen]
  have h1 : List.replicate (m + 1 - 1) (0 : Nat) ++ [0] = List.replicate (m + 1) 0 := by
    have hm : m + 1 - 1 = m := by omega
    rw [hm, ← List.replicate_succ']
  rw [h1]
  simp [List.map_replicate]
  decide

/-- A boolean cell is displayed as the formatted number `1`. -/
theorem format_bool_true (p : Nat) : format_for_display p (Json.bool true) = "1" := by
  have h1 : toFloat (Json.bool true) = some 1 := by simp [toFloat]
  cases p with
  | zero =>
    have hr : roundHalfEven (1 : ℚ) = 1 := by
      have h := roundHalfEven_intCast 1
      simpa using h
    norm_num [format_for_display, h1, formatFixedList, hr]
    decide
  | succ m =>
    simp only [format_for_display, h1]
    rw [if_pos (Nat.succ_pos m), formatFixedList_one, rstrip_append_replicate]
    decide

/-- A boolean cell is displayed as the formatted number `0`. -/
theorem format_bool_false (p : Nat) : format_for_display p (Json.bool false) = "0" := by
  have h1 : toFloat (Json.bool false) = some 0 := by simp [toFloat]
  cases p with
  | zero =>
    have hr : roundHalfEven (0 : ℚ) = 0 := by
      have h := roundHalfEven_intCast 0
      simpa using h
    norm_num [format_for_display, h1, formatFixedList, hr]
    decide
  | succ m =>
    simp only [format_for_display, h1]
    rw [if_pos (Nat.succ_pos m), formatFixedList_zero, rstrip_append_replicate]
    decide

/-- The red branch of the cell coloring, unfolded. -/
theorem cellColor_red (md avg q : ℚ) (v : Json) (hv : toFloat v = some q)
    (havg : avg ≠ 0) (hd : md < |q - avg| / |avg|) :
    cellColor (some md) avg v =
      some (red_color (max 0 (min 1 ((|q - avg| / |avg| - md) /
        max (md * red_cap_factor) epsDenom)))) := by
  simp only [cellColor, hv]
  rw [if_neg havg, if_neg (not_le.mpr hd)]

/-! ## Claims -/

/-- C2: for every matrix encountered under a dict key during rendering,
the threshold is resolved by precedence: an exact per-table rule keyed by
the matrix's key wins; with no per-table rules configured at all (the
constructor stores an absent or empty rule set as `None`), the single
default threshold applies to every matrix; if per-table rules exist but
the key is not among them, no threshold is resolved and no cell of that
matrix is colored. -/
theorem heatmap_rule_precedence :
    (∀ (rules : List (String × ℚ)) (d : ℚ) (key : String) (md : ℚ),
      lookupRule key rules = some md → resolveMaxDev (some rules) d key = some md) ∧
    (∀ (d : ℚ) (key : String), resolveMaxDev none d key = some d) ∧
    (mkRules none = none ∧ mkRules (some []) = none) ∧
    (∀ (rules : List (String × ℚ)) (d : ℚ) (key : String),
      lookupRule key rules = none → resolveMaxDev (some rules) d key = none) ∧
    (∀ (avg : ℚ) (v : Json), cellColor none avg v = none) ∧
    (∀ (cfg : ViewerCfg) (key : String) (value : Json) (rest : List (String × Json)),
      is_2d_array value = true →
      renderObjEntries cfg ((key, value) :: rest) =
        [RenderItem.label (key ++ ":") true,
         RenderItem.table (add_table cfg.precision
           (resolveMaxDev cfg.heatmap_rules cfg.default_max_dev key)
           (rowsOf value))] ++ renderObjEntries cfg rest) := by
  refine ⟨?_, ?_, ⟨rfl, rfl⟩, ?_, ?_, ?_⟩
  · intro rules d key md h
    simp [resolveMaxDev, h]
  · intro d key
    rfl
  · intro rules d key h
    simp [resolveMaxDev, h]
  · intro avg v
    rfl
  · intro cfg key value rest h
    rw [renderObjEntries, if_pos h]

/-- Witness for C2, the spec's own example: with per-table rules
`{A: 0.1}` a matrix labeled `B` resolves no threshold (and a `B` cell is
uncolored), while with no per-table rules and default `0.2` it resolves
`0.2`; the rule named `A` itself resolves to `0.1`. -/
theorem heatmap_rule_precedence_witness :
    resolveMaxDev (some [("A", 1/10)]) (1/5) "B" = none ∧
    cellColor none (1 : ℚ) (Json.num 3) = none ∧
    resolveMaxDev none (1/5) "B" = some (1/5) ∧
    resolveMaxDev (some [("A", 1/10)]) (1/5) "A" = some (1/10) :=
  ⟨heatmap_rule_precedence.2.2.2.1 [("A", 1/10)] (1/5) "B" (by rfl),
   heatmap_rule_precedence.2.2.2.2.1 1 (Json.num 3),
   heatmap_rule_precedence.2.1 (1/5) "B",
   heatmap_rule_precedence.1 [("A", 1/10)] (1/5) "A" (1/10) (by rfl)⟩

/-- C3 (amended): over any sequence of input lines, the records emitted
by the read loop are exactly the per-line successes of strict decoding
to a dict — an empty line, a line the decoder rejects, and a line that
decodes to a non-dict value (the typed signal `pyqtSignal(dict)` makes
`emit` raise, caught by the loop's outer `except`) emit nothing, while
a line decoding to a dict emits exactly that one record — and the
emissions do not depend on the buffer contents left by earlier lines
(lines are never concatenated: the loop reassigns `buffer = line`
before parsing). -/
theorem reader_line_framing :
    (∀ (dec : String → Option Json) (buf : String) (lines : List String),
      (runReader dec buf lines).2 =
        lines.filterMap (fun l =>
          if l = "" then none
          else match dec l with
            | some (Json.obj kvs) => some (Json.obj kvs)
            | _ => none)) ∧
    (∀ (dec : String → Option Json) (buf1 buf2 : String) (lines : List String),
      (runReader dec buf1 lines).2 = (runReader dec buf2 lines).2) := by
  have key : ∀ (dec : String → Option Json) (buf : String) (lines : List String),
      (runReader dec buf lines).2 =
        lines.filterMap (fun l =>
          if l = "" then none
          else match dec l with
            | some (Json.obj kvs) => some (Json.obj kvs)
            | _ => none) := by
    intro dec buf lines
    induction lines generalizing buf with
    | nil => rfl
    | cons l rest ih =>
      simp only [runReader, readStep]
      by_cases h : l = ""
      · simp [h, ih]
      · cases hd : dec l with
        | none => simp [h, hd, ih]
        | some j => cases j <;> simp [h, hd, ih]
  exact ⟨key, fun dec b1 b2 lines => (key dec b1 lines).trans (key dec b2 lines).symm⟩

/-- Counterexample for C3 as stated: the input line `42` strictly
parses as JSON (to the number `42`), yet the read loop delivers no
record — `data_received` is declared `pyqtSignal(dict)`, so `emit(42)`
raises `TypeError`, which the outer `except` catches and logs; a
well-formed dict line right after it is still delivered intact. -/
theorem reader_nondict_cex :
    decNum42 "42" = some (Json.num 42) ∧
    (runReader decNum42 "" ["42"]).2 = [] := by
  constructor
  · rfl
  · rfl

/-- C5: in a matrix whose mean over the numeric-parsing cells is zero,
no cell receives a background color, whatever rule (or none) applies:
the `avg != 0` guard fails before any division by the mean. -/
theorem zero_avg_uncolored (prec : Nat) (md : Option ℚ) (rows : List (List Json))
    (h : avgOf rows = 0) :
    ((add_table prec md rows).all (fun r => r.all (fun c => c.2.isNone))) = true := by
  simp only [List.all_eq_true]
  intro r hr c hc
  simp only [add_table, List.mem_map] at hr
  obtain ⟨row, hrow, rfl⟩ := hr
  simp only [List.mem_map] at hc
  obtain ⟨v, hv, rfl⟩ := hc
  cases md with
  | none => rfl
  | some m => simp [cellColor, h]

/-- Witness for C5: the matrix `[[1, -1]]` has mean `0` and both its
cells are uncolored even though a rule applies. -/
theorem zero_avg_uncolored_witness :
    ((add_table 3 (some (1/20)) [[Json.num 1, Json.num (-1)]]).all
      (fun r => r.all (fun c => c.2.isNone))) = true :=
  zero_avg_uncolored 3 (some (1/20)) [[Json.num 1, Json.num (-1)]]
    (by simp [avgOf, numsOf, toFloat])

/-- C7: the heatmap mean is taken over exactly the cells `float`
accepts: a non-parsing cell is excluded from `nums` (so the mean is
unchanged by inserting it), it is rendered without color, and — since
the `try` blocks absorb the failure — it causes no error; on the
numeric cells the mean satisfies `avg * len(nums) = sum(nums)`. -/
theorem avg_numeric_cells :
    (∀ (md : Option ℚ) (avg : ℚ) (v : Json),
      toFloat v = none → cellColor md avg v = none) ∧
    (∀ (r : List Json) (rows : List (List Json)) (v : Json),
      toFloat v = none → numsOf ((v :: r) :: rows) = numsOf (r :: rows)) ∧
    (∀ rows : List (List Json), numsOf rows ≠ [] →
      avgOf rows * ((numsOf rows).length : ℚ) = (numsOf rows).sum) := by
  refine ⟨?_, ?_, ?_⟩
  · intro md avg v h
    cases md with
    | none => rfl
    | some m => simp [cellColor, h]
  · intro r rows v h
    simp [numsOf, h]
  · intro rows h
    rw [avgOf, if_neg h]
    have hlen0 : (numsOf rows).length ≠ 0 := fun hh => h (List.length_eq_zero.mp hh)
    have hlen : ((numsOf rows).length : ℚ) ≠ 0 := Nat.cast_ne_zero.mpr hlen0
    field_simp

/-- Witness for C7: in `[[2, null]]` the `null` cell does not parse, is
uncolored, is excluded from the mean, and the mean equation holds. -/
theorem avg_numeric_cells_witness :
    cellColor (some (1/10)) 1 Json.null = none ∧
    numsOf [[Json.null, Json.num 2]] = numsOf [[Json.num 2]] ∧
    avgOf [[Json.num 2]] * ((numsOf [[Json.num 2]]).length : ℚ) =
      (numsOf [[Json.num 2]]).sum :=
  ⟨avg_numeric_cells.1 (some (1/10)) 1 Json.null rfl,
   avg_numeric_cells.2.1 [Json.num 2] [] Json.null rfl,
   avg_numeric_cells.2.2 [[Json.num 2]] (by simp [numsOf, toFloat])⟩

/-- C1 (amended): for a numeric cell under an applicable rule with
nonzero mean and relative deviation `diff > max_deviation`, the cell
gets the out-of-band color interpolated by
`t = clamp((diff - max_deviation) / max(max_deviation * 5, 1e-12), 0, 1)`
— the source guards the denominator with `1e-12`, which the claim's
formula omits; on the spec's example `[[10,10],[10,40]]` the mean is
`17.5`, cell `40` has `diff = 22.5/17.5 = 9/7`, and with
`max_deviation = 0.1` the parameter saturates to `1`. -/
theorem heatmap_out_of_band_gradient :
    (∀ (md avg q : ℚ) (v : Json), toFloat v = some q → avg ≠ 0 →
      md < |q - avg| / |avg| →
      cellColor (some md) avg v =
        some (red_color (max 0 (min 1 ((|q - avg| / |avg| - md) /
          max (md * red_cap_factor) epsDenom))))) ∧
    avgOf [[Json.num 10, Json.num 10], [Json.num 10, Json.num 40]] = 35/2 ∧
    |(40 : ℚ) - 35/2| / |(35/2 : ℚ)| = 9/7 ∧
    cellColor (some (1/10)) (35/2) (Json.num 40) = some (red_color 1) ∧
    red_color 1 = ⟨255, 140, 140⟩ := by
  have habs : |(40 : ℚ) - 35/2| / |(35/2 : ℚ)| = 9/7 := by
    rw [abs_of_nonneg (by norm_num : (0 : ℚ) ≤ 40 - 35/2),
        abs_of_nonneg (by norm_num : (0 : ℚ) ≤ 35/2)]
    norm_num
  refine ⟨cellColor_red, ?_, habs, ?_, ?_⟩
  · simp [avgOf, numsOf, toFloat]
    norm_num
  · rw [cellColor_red (1/10) (35/2) 40 (Json.num 40) rfl (by norm_num)
      (by rw [habs]; norm_num)]
    rw [habs, red_cap_factor, epsDenom]
    rw [max_eq_left (by norm_num : (1 : ℚ)/10^12 ≤ 1/10 * 5)]
    rw [min_eq_left (by norm_num : (1 : ℚ) ≤ (9/7 - 1/10) / (1/10 * 5))]
    rw [max_eq_right (by norm_num : (0 : ℚ) ≤ 1)]
  · have hmin : min (1 : ℚ) 1 = 1 := min_self 1
    norm_num [red_color, lerp, intTrunc, hmin]

/-- Witness for C1: the red-branch formula applied at a concrete cell
(`3` against mean `1` with threshold `0.1`). -/
theorem heatmap_out_of_band_gradient_witness :
    cellColor (some (1/10)) 1 (Json.num 3) =
      some (red_color (max 0 (min 1 ((|(3 : ℚ) - 1| / |(1 : ℚ)| - 1/10) /
        max ((1/10) * red_cap_factor) epsDenom)))) :=
  heatmap_out_of_band_gradient.1 (1/10) 1 3 (Json.num 3) rfl one_ne_zero
    (by rw [abs_of_nonneg (by norm_num : (0 : ℚ) ≤ 3 - 1), abs_one]; norm_num)

/-- Counterexample for C1 as stated: with the (legal) rule
`max_deviation = 1e-13` and the cell `1 + 6e-13` against mean `1`
(`diff = 6e-13 > max_deviation`), the source divides by
`max(max_deviation * 5, 1e-12) = 1e-12`, giving `t = 1/2` and color
`(255, 187, 187)`, while the claim's formula
`clamp((diff - max_deviation) / (max_deviation * 5), 0, 1)` gives
`t = 1` and color `(255, 140, 140)`. -/
theorem heatmap_out_of_band_cex :
    cellColor (some (1/10^13)) 1 (Json.num (1 + 6/10^13)) =
      some (Color.mk 255 187 187) ∧
    red_color (claimOutOfBandT (|(1 + 6/10^13 : ℚ) - 1| / |(1 : ℚ)|) (1/10^13)) =
      Color.mk 255 140 140 ∧
    Color.mk 255 187 187 ≠ Color.mk 255 140 140 := by
  have habs : |(1 + 6/10^13 : ℚ) - 1| / |(1 : ℚ)| = 6/10^13 := by
    rw [abs_of_nonneg (by norm_num : (0 : ℚ) ≤ 1 + 6/10^13 - 1), abs_one]
    norm_num
  refine ⟨?_, ?_, by decide⟩
  · rw [cellColor_red (1/10^13) 1 (1 + 6/10^13) (Json.num (1 + 6/10^13)) rfl
      one_ne_zero (by rw [habs]; norm_num)]
    rw [habs, red_cap_factor, epsDenom]
    rw [max_eq_right (by norm_num : (1 : ℚ)/10^13 * 5 ≤ 1/10^12)]
    have hq : ((6 : ℚ)/10^13 - 1/10^13) / (1/10^12) = 1/2 := by norm_num
    rw [hq, min_eq_right (by norm_num : (1 : ℚ)/2 ≤ 1),
        max_eq_right (by norm_num : (0 : ℚ) ≤ 1/2)]
    have hmin : min (1 : ℚ) (1/2) = 1/2 := min_eq_right (by norm_num)
    have hmax : max (0 : ℚ) (1/2) = 1/2 := max_eq_right (by norm_num)
    norm_num [red_color, lerp, intTrunc, hmin, hmax]
  · rw [habs, claimOutOfBandT, red_cap_factor]
    have hq : ((6 : ℚ)/10^13 - 1/10^13) / (1/10^13 * 5) = 1 := by norm_num
    rw [hq, min_self, max_eq_right (by norm_num : (0 : ℚ) ≤ 1)]
    have hmin : min (1 : ℚ) 1 = 1 := min_self 1
    norm_num [red_color, lerp, intTrunc, hmin]

/-- C6 (amended): under an applicable rule with nonzero mean, every
numeric cell's relative deviation is non-negative, and a cell exactly at
the mean (`diff = 0`) gets the lightest in-band shade `green_color 0 =
(234, 251, 234)` whenever the rule's `max_deviation` is positive; when
`max_deviation = 0`, `t = diff / max_dev` raises `ZeroDivisionError`,
the `except` swallows it, and the cell gets no color. -/
theorem in_band_zero_diff :
    ∀ (md avg q : ℚ) (v : Json), toFloat v = some q → avg ≠ 0 →
      0 ≤ |q - avg| / |avg| ∧
      (0 < md → |q - avg| / |avg| = 0 →
        cellColor (some md) avg v = some (green_color 0) ∧
        green_color 0 = ⟨234, 251, 234⟩) ∧
      (md = 0 → |q - avg| / |avg| = 0 → cellColor (some md) avg v = none) := by
  intro md avg q v hv havg
  refine ⟨div_nonneg (abs_nonneg _) (abs_nonneg _), ?_, ?_⟩
  · intro hmd hdiff
    constructor
    · simp only [cellColor, hv]
      rw [if_neg havg, hdiff, if_pos (le_of_lt hmd), if_neg (ne_of_gt hmd), zero_div]
    · have hmin : min (1 : ℚ) 0 = 0 := min_eq_right (by norm_num)
      norm_num [green_color, lerp, intTrunc, hmin]
  · intro hmd hdiff
    simp only [cellColor, hv]
    rw [if_neg havg, hdiff, hmd, if_pos (le_refl (0 : ℚ)), if_pos rfl]

/-- Witness for C6: the cell `1` at mean `1` with threshold `0.1` has
deviation `0` and gets the lightest green. -/
theorem in_band_zero_diff_witness :
    0 ≤ |(1 : ℚ) - 1| / |(1 : ℚ)| ∧
    cellColor (some (1/10)) 1 (Json.num 1) = some (green_color 0) := by
  have habs0 : |(1 : ℚ) - 1| / |(1 : ℚ)| = 0 := by
    rw [sub_self, abs_zero, zero_div]
  have h := in_band_zero_diff (1/10) 1 1 (Json.num 1) rfl one_ne_zero
  exact ⟨h.1, (h.2.1 (by norm_num) habs0).1⟩

/-- Counterexample for C6 as stated: the matrix `[[1, 1]]` with the
(legal) rule `max_deviation = 0` has mean `1 ≠ 0`; its cells have
`diff = 0`, yet they receive no color at all — `t = diff / max_dev` is
`0.0 / 0.0`, which raises and is swallowed — not the lightest in-band
shade the claim promises. -/
theorem in_band_zero_diff_cex :
    avgOf [[Json.num 1, Json.num 1]] = 1 ∧
    cellColor (some 0) (avgOf [[Json.num 1, Json.num 1]]) (Json.num 1) = none ∧
    green_color 0 = ⟨234, 251, 234⟩ ∧
    (none : Option Color) ≠ some (green_color 0) := by
  have havg : avgOf [[Json.num 1, Json.num 1]] = 1 := by
    simp [avgOf, numsOf, toFloat]
  refine ⟨havg, ?_, ?_, by simp⟩
  · rw [havg]
    simp only [cellColor, toFloat]
    rw [if_neg one_ne_zero]
    rw [show |(1 : ℚ) - 1| / |(1 : ℚ)| = 0 from by rw [sub_self, abs_zero, zero_div]]
    rw [if_pos (le_refl (0 : ℚ))]
    simp
  · have hmin : min (1 : ℚ) 0 = 0 := min_eq_right (by norm_num)
    norm_num [green_color, lerp, intTrunc, hmin]

/-- Re-displaying the record just displayed leaves the table view
unchanged and performs no rebuild. -/
theorem display_tables_stable (cfg : ViewerCfg) (st : ViewerState) (d : Json)
    (hd : pyEq d d = true) :
    display_tables cfg (display_tables cfg st d).1 d =
      ((display_tables cfg st d).1, 0) := by
  by_cases hc : (match st.last_rendered with
                 | some prev => pyEq d prev
                 | none => false) = true
  · simp [display_tables, hc]
  · simp [display_tables, hc, hd]

/-- C4 (amended): the equality skip makes the table view idempotent —
if the incoming record compares `==` to `last_rendered`,
`display_tables` does nothing — but `update_view` also calls
`render_non_table`, which clears and rebuilds the companion view
unconditionally, so a second call with an identical record still
performs exactly that one rebuild (leaving the whole view state
unchanged). -/
theorem display_idempotent_table_view :
    (∀ (cfg : ViewerCfg) (st : ViewerState) (d prev : Json),
      st.last_rendered = some prev → pyEq d prev = true →
      display_tables cfg st d = (st, 0)) ∧
    (∀ (cfg : ViewerCfg) (st : AppState) (d : Json), pyEq d d = true →
      update_view cfg (update_view cfg st d).1 d =
        ((update_view cfg st d).1, 1)) := by
  constructor
  · intro cfg st d prev h1 h2
    simp [display_tables, h1, h2]
  · intro cfg st d hd
    simp only [update_view]
    rw [display_tables_stable cfg st.table_viewer d hd]

/-- Witness for C4: on the record `{"a": 1}` a repeated `display_tables`
is a no-op and a repeated `update_view` only re-runs the non-table
rebuild. -/
theorem display_idempotent_table_view_witness :
    display_tables ⟨3, none, 1/20⟩
      ⟨some (Json.obj [("a", Json.num 1)]), []⟩ (Json.obj [("a", Json.num 1)]) =
      (⟨some (Json.obj [("a", Json.num 1)]), []⟩, 0) ∧
    update_view ⟨3, none, 1/20⟩
      ((update_view ⟨3, none, 1/20⟩ ⟨⟨none, []⟩, []⟩ (Json.obj [("a", Json.num 1)])).1)
      (Json.obj [("a", Json.num 1)]) =
      ((update_view ⟨3, none, 1/20⟩ ⟨⟨none, []⟩, []⟩ (Json.obj [("a", Json.num 1)])).1, 1) :=
  ⟨display_idempotent_table_view.1 ⟨3, none, 1/20⟩
      ⟨some (Json.obj [("a", Json.num 1)]), []⟩
      (Json.obj [("a", Json.num 1)]) (Json.obj [("a", Json.num 1)]) rfl (by decide),
   display_idempotent_table_view.2 ⟨3, none, 1/20⟩ ⟨⟨none, []⟩, []⟩
      (Json.obj [("a", Json.num 1)]) (by decide)⟩

/-- Counterexample for C4 as stated: displaying `{"a": 1}` twice, the
second `update_view` call leaves the view contents unchanged but still
performs one rebuild — `render_non_table` runs again (its work counter
is `1`, not `0`), because only `display_tables` has the equality skip. -/
theorem display_second_call_rebuild_cex :
    (update_view ⟨3, none, 1/20⟩
      ((update_view ⟨3, none, 1/20⟩ ⟨⟨none, []⟩, []⟩ (Json.obj [("a", Json.num 1)])).1)
      (Json.obj [("a", Json.num 1)])).2 = 1 ∧
    (1 : Nat) ≠ 0 := by
  constructor
  · simp [update_view, display_tables, pyEq, pyEqObjSub, lookupEntry]
  · omega

/-- C8 (amended): `is_2d_array` accepts exactly the non-empty sequences
of sequences in which every inner sequence has the length of the first —
with no constraint on the cell values, which may themselves be sequences
or objects (the claim's "sequences of scalars" is not checked by the
source); every non-sequence value is rejected. -/
theorem matrix_classifier_shape :
    (∀ rows : List Json, is_2d_array (Json.arr rows) = true ↔
      (rows ≠ [] ∧ ∀ r ∈ rows,
        (∃ cs, r = Json.arr cs) ∧ rowLen r = rowLen rows.headI)) ∧
    is_2d_array Json.null = false ∧
    (∀ b, is_2d_array (Json.bool b) = false) ∧
    (∀ q, is_2d_array (Json.num q) = false) ∧
    (∀ s, is_2d_array (Json.str s) = false) ∧
    (∀ kvs, is_2d_array (Json.obj kvs) = false) := by
  refine ⟨?_, rfl, fun _ => rfl, fun _ => rfl, fun _ => rfl, fun _ => rfl⟩
  intro rows
  cases rows with
  | nil => simp [is_2d_array]
  | cons r0 rest =>
    simp only [is_2d_array, Bool.and_eq_true, List.all_eq_true, List.headI_cons]
    constructor
    · rintro ⟨h1, h2⟩
      refine ⟨by simp, ?_⟩
      intro r hr
      have ha := h1 r hr
      have hl := h2 r hr
      cases r with
      | arr cs => exact ⟨⟨cs, rfl⟩, by simpa using hl⟩
      | null => simp at ha
      | bool b => simp at ha
      | num q => simp at ha
      | str s => simp at ha
      | obj kvs => simp at ha
    · rintro ⟨hne, hall⟩
      constructor <;> intro r hr
      · obtain ⟨⟨cs, rfl⟩, hlen⟩ := hall r hr
        rfl
      · obtain ⟨⟨cs, rfl⟩, hlen⟩ := hall r hr
        simpa using hlen

/-- Witness for C8: the rectangular grid `[[1]]` is classified as a
matrix via the amended characterization. -/
theorem matrix_classifier_shape_witness :
    is_2d_array (Json.arr [Json.arr [Json.num 1]]) = true :=
  (matrix_classifier_shape.1 [Json.arr [Json.num 1]]).mpr
    ⟨by simp, by
      intro r hr
      simp only [List.mem_singleton] at hr
      subst hr
      exact ⟨⟨[Json.num 1], rfl⟩, rfl⟩⟩

/-- Counterexample for C8 as stated: `[[[ ]]]` — a 1x1 grid whose only
cell is itself a sequence, not a scalar — is not a Matrix in the spec's
sense, yet `is_2d_array` accepts it and `render_data` renders it as a
table (the cell displaying as the text `[]`). -/
theorem matrix_classifier_scalar_cex :
    is_2d_array (Json.arr [Json.arr [Json.arr []]]) = true ∧
    isMatrixSpec (Json.arr [Json.arr [Json.arr []]]) = false ∧
    render_data ⟨3, none, 1/20⟩ (Json.obj [("k", Json.arr [Json.arr [Json.arr []]])]) =
      [RenderItem.label "k:" true,
       RenderItem.table [[(pyStr (Json.arr []), none)]]] := by
  refine ⟨by decide, by decide, ?_⟩
  simp [render_data, renderObjEntries, is_2d_array, rowLen, add_table, rowsOf,
        avgOf, numsOf, toFloat, resolveMaxDev, cellColor, format_for_display]

/-- C9: display formatting — a value parsing as a float is fixed-point
formatted with `prec` decimals and trailing zeros plus a dangling
decimal point are stripped (`3.14000` at precision 3 renders `3.14`,
`5` at precision 0 renders `5`, `5.0` at precision 3 renders `5`),
while a value that fails numeric parsing is stringified unchanged. -/
theorem numeric_display_formatting :
    format_for_display 3 (Json.num (157/50)) = "3.14" ∧
    format_for_display 0 (Json.num 5) = "5" ∧
    format_for_display 3 (Json.num 5) = "5" ∧
    (∀ (p : Nat) (v : Json), toFloat v = none → format_for_display p v = pyStr v) := by
  refine ⟨?_, ?_, ?_, ?_⟩
  · have hr : roundHalfEven ((157 : ℚ)/50 * 10 ^ 3) = 3140 := by
      have h : ((157 : ℚ)/50 * 10 ^ 3) = ((3140 : ℤ) : ℚ) := by norm_num
      rw [h, roundHalfEven_intCast]
    simp only [format_for_display, toFloat, formatFixedList, hr]
    decide
  · have hr : roundHalfEven ((5 : ℚ) * 10 ^ 0) = 5 := by
      have h : ((5 : ℚ) * 10 ^ 0) = ((5 : ℤ) : ℚ) := by norm_num
      rw [h, roundHalfEven_intCast]
    simp only [format_for_display, toFloat, formatFixedList, hr]
    decide
  · have hr : roundHalfEven ((5 : ℚ) * 10 ^ 3) = 5000 := by
      have h : ((5 : ℚ) * 10 ^ 3) = ((5000 : ℤ) : ℚ) := by norm_num
      rw [h, roundHalfEven_intCast]
    simp only [format_for_display, toFloat, formatFixedList, hr]
    decide
  · intro p v h
    simp [format_for_display, h]

/-- Witness for C9: `None` does not parse as a number and is rendered as
its `str`. -/
theorem numeric_display_formatting_witness :
    format_for_display 3 Json.null = pyStr Json.null :=
  numeric_display_formatting.2.2.2 3 Json.null rfl

/-- C10: boolean cells are numeric throughout the pipeline —
`float(True)` is `1.0` and `float(False)` is `0.0`, so booleans enter
the heatmap mean (e.g. `[[true, false]]` has mean `0.5`), are eligible
for coloring like any numeric cell (here `true` deviates by `100%` and
gets the strongest red), and display as the formatted numbers `1` / `0`
rather than the texts `True` / `False`. -/
theorem boolean_cells_numeric :
    (∀ b, toFloat (Json.bool b) = some (if b then 1 else 0)) ∧
    (∀ p : Nat, format_for_display p (Json.bool true) = "1" ∧
      format_for_display p (Json.bool false) = "0") ∧
    avgOf [[Json.bool true, Json.bool false]] = 1/2 ∧
    cellColor (some (1/10)) (avgOf [[Json.bool true, Json.bool false]])
      (Json.bool true) = some (red_color 1) := by
  have havg : avgOf [[Json.bool true, Json.bool false]] = 1/2 := by
    simp [avgOf, numsOf, toFloat]
  have habs : |(1 : ℚ) - 1/2| / |(1/2 : ℚ)| = 1 := by
    rw [abs_of_nonneg (by norm_num : (0 : ℚ) ≤ 1 - 1/2),
        abs_of_nonneg (by norm_num : (0 : ℚ) ≤ 1/2)]
    norm_num
  refine ⟨fun b => rfl, fun p => ⟨format_bool_true p, format_bool_false p⟩, havg, ?_⟩
  rw [havg]
  rw [cellColor_red (1/10) (1/2) 1 (Json.bool true) (by simp [toFloat])
    (by norm_num) (by rw [habs]; norm_num)]
  rw [habs, red_cap_factor, epsDenom]
  rw [max_eq_left (by norm_num : (1 : ℚ)/10^12 ≤ 1/10 * 5)]
  rw [min_eq_left (by norm_num : (1 : ℚ) ≤ (1 - 1/10) / (1/10 * 5))]
  rw [max_eq_right (by norm_num : (0 : ℚ) ≤ 1)]
